import Mathlib

/-!
Verification development for the Chef-Bot recipe application.

The main subject is the recipe proxy function (a Deno `serve` handler):
it reads an ingredient list from the request body, calls an upstream
chat-completion gateway, and maps the upstream outcome onto HTTP
responses.  The handler is embedded as a pure function over an explicit
environment: the external JSON parser, the upstream fetch, the configured
API key and the incoming request are parameters.  Exceptions of the
original TypeScript are modelled with `Except String`; the top-level
catch clause corresponds to the `Except.error` branch of `serve`.

The second subject is the save / favorite / listing logic of the UI
pages, embedded as pure list operations over the persisted rows.
-/

/-- JSON values, as produced by the external JSON parser. -/
inductive Json where
  | null : Json
  | bool : Bool → Json
  | num : Int → Json
  | str : String → Json
  | arr : List Json → Json
  | obj : List (String × Json) → Json
deriving Repr

/-- The upstream fetch result: HTTP status, the raw text of the body
(read only on error branches, where it is logged), and the result of
parsing the body as JSON (read only on the success branch). -/
structure UpstreamResp where
  status : Nat
  errorText : String
  body : Except String Json
deriving Repr

/-- The request body sent to the upstream chat-completion gateway:
model identifier, the two-message conversation, and the response format
constraint. -/
structure ChatRequest where
  model : String
  systemContent : String
  userContent : String
  responseFormat : String
deriving Repr

/-- An incoming HTTP request: its method and the result of parsing its
body as JSON (an `Except.error` models a thrown parse exception). -/
structure Request where
  method : String
  body : Except String Json
deriving Repr

/-- An outgoing HTTP response: status, headers, and optional JSON body
(`none` models `new Response(null, ...)`). -/
structure Response where
  status : Nat
  headers : List (String × String)
  body : Option Json
deriving Repr

/-- The permissive CORS headers attached to every response. -/
def corsHeaders : List (String × String) :=
  [("Access-Control-Allow-Origin", "*"),
   ("Access-Control-Allow-Headers",
    "authorization, x-client-info, apikey, content-type")]

/-- The header set of every JSON response: the CORS headers spread
together with the content type. -/
def jsonHeaders : List (String × String) :=
  corsHeaders ++ [("Content-Type", "application/json")]

/-- The fixed instructional system prompt. -/
def systemPrompt : String :=
  "You are an expert chef AI that creates delicious recipes based on available ingredients. \nWhen given a list of ingredients, create a complete, detailed recipe that:\n- Has a creative and appetizing name\n- Lists all ingredients with measurements\n- Provides clear step-by-step cooking instructions\n- Includes estimated cooking time (in minutes)\n- Specifies difficulty level (Easy, Medium, or Hard)\n- Includes nutritional macros per serving (calories, protein, carbs, fats)\n- Makes the most of the provided ingredients\n\nFormat your response as JSON with this structure:\n\x7b\n  \"name\": \"Recipe Name\",\n  \"cookingTime\": 30,\n  \"difficulty\": \"Easy\",\n  \"servings\": 4,\n  \"macros\": \x7b\n    \"calories\": 450,\n    \"protein\": 35,\n    \"carbs\": 40,\n    \"fats\": 15\n  \x7d,\n  \"ingredients\": [\"ingredient 1\", \"ingredient 2\"],\n  \"instructions\": [\"step 1\", \"step 2\"]\n\x7d"

/-- The user-turn prompt: the fixed lead-in followed by the ingredient
list joined with a comma delimiter (the `join` call of the source). -/
def mkUserPrompt (ingredients : List String) : String :=
  "Create a recipe using these ingredients: " ++ String.intercalate ", " ingredients

/-- The upstream request constructed by the handler. -/
def mkChatRequest (ingredients : List String) : ChatRequest :=
  { model := "google/gemini-2.5-flash",
    systemContent := systemPrompt,
    userContent := mkUserPrompt ingredients,
    responseFormat := "json_object" }

/-- Field lookup in a JSON object. -/
def lookupField (fields : List (String × Json)) (key : String) : Option Json :=
  (fields.find? (fun p => p.1 == key)).map Prod.snd

/-- Interpret a list of JSON values as a list of strings.  Ingredient
arrays with non-string elements are modelled as extraction failure; the
claims only involve arrays of strings. -/
def asStringList : List Json → Option (List String)
  | [] => some []
  | Json.str s :: rest =>
      match asStringList rest with
      | some l => some (s :: l)
      | none => none
  | _ => none

/-- Extract the `ingredients` field of the request body as a list of
strings.  Failure models the TypeError thrown when `.join` is called on
a value that is not an array. -/
def getIngredients (body : Json) : Option (List String) :=
  match body with
  | Json.obj fields =>
      match lookupField fields "ingredients" with
      | some (Json.arr xs) => asStringList xs
      | _ => none
  | _ => none

/-- Extract `data.choices[0].message.content` from the upstream body.
Failure models the TypeError thrown by the property accesses when the
shape is not as expected. -/
def getContent (data : Json) : Option String :=
  match data with
  | Json.obj fields =>
      match lookupField fields "choices" with
      | some (Json.arr (first :: _)) =>
          match first with
          | Json.obj cfields =>
              match lookupField cfields "message" with
              | some (Json.obj mfields) =>
                  match lookupField mfields "content" with
                  | some (Json.str s) => some s
                  | _ => none
              | _ => none
          | _ => none
      | _ => none
  | _ => none

/-- Whether destructuring the request body would throw (only a null
body does). -/
def isNullJson : Json → Bool
  | Json.null => true
  | _ => false

/-- The `ok` property of a fetch response: status in the 200 to 299
range. -/
def statusOk (status : Nat) : Bool :=
  200 ≤ status && status ≤ 299

/-- The message of the error thrown when the API key is missing. -/
def keyMissingMsg : String := "LOVABLE_API_KEY is not configured"

/-- The message of the error thrown on a generic upstream failure; it
embeds the upstream status in decimal. -/
def gatewayErrorMsg (status : Nat) : String :=
  "AI gateway error: " ++ toString status

/-- Modelled engine message of the TypeError thrown when the request
body is null and the destructuring fails; only the 500 status depends
on it. -/
def destructureErrorMsg : String := "Cannot destructure property"

/-- Modelled engine message of the TypeError thrown when `.join` fails
because `ingredients` is absent or not an array. -/
def joinTypeErrorMsg : String := "ingredients.join is not a function"

/-- Modelled engine message of the TypeError thrown when the upstream
body does not have the choices-message-content shape. -/
def contentAccessErrorMsg : String := "Cannot read properties of undefined"

/-- Modelled engine message of the SyntaxError thrown when the message
content is not parseable JSON. -/
def parseErrorMsg : String := "Unexpected token in JSON"

/-- An error response: the given status with a JSON error envelope. -/
def mkErrorResponse (status : Nat) (msg : String) : Response :=
  { status := status, headers := jsonHeaders,
    body := some (Json.obj [("error", Json.str msg)]) }

/-- Processing of the upstream fetch result: the status check with the
429 and 402 branches and the generic throw, then the parse of the
message content on the success branch. -/
def handleUpstream (jsonParse : String → Option Json)
    (resp : UpstreamResp) : Except String Response :=
  if statusOk resp.status then
    match resp.body with
    | Except.error e => Except.error e
    | Except.ok data =>
      match getContent data with
      | none => Except.error contentAccessErrorMsg
      | some content =>
        match jsonParse content with
        | none => Except.error parseErrorMsg
        | some recipeData =>
          Except.ok { status := 200, headers := jsonHeaders,
                      body := some (Json.obj [("recipe", recipeData)]) }
  else if resp.status = 429 then
    Except.ok (mkErrorResponse 429 "Rate limit exceeded. Please try again later.")
  else if resp.status = 402 then
    Except.ok (mkErrorResponse 402 "Payment required. Please add credits to your workspace.")
  else
    Except.error (gatewayErrorMsg resp.status)

/-- The body of the try block of the handler.  `Except.error` carries
the message of the thrown exception. -/
def handlerBody (jsonParse : String → Option Json)
    (fetchUpstream : ChatRequest → UpstreamResp)
    (apiKey : Option String) (req : Request) : Except String Response :=
  match req.body with
  | Except.error e => Except.error e
  | Except.ok body =>
    if isNullJson body then Except.error destructureErrorMsg
    else
      match apiKey with
      | none => Except.error keyMissingMsg
      | some _ =>
        match getIngredients body with
        | none => Except.error joinTypeErrorMsg
        | some ingredients =>
          handleUpstream jsonParse (fetchUpstream (mkChatRequest ingredients))

/-- The full handler: the OPTIONS short-circuit, then the try block,
with every thrown exception mapped to a 500 error envelope by the
catch clause. -/
def serve (jsonParse : String → Option Json)
    (fetchUpstream : ChatRequest → UpstreamResp)
    (apiKey : Option String) (req : Request) : Response :=
  if req.method = "OPTIONS" then
    { status := 200, headers := corsHeaders, body := none }
  else
    match handlerBody jsonParse fetchUpstream apiKey req with
    | Except.ok r => r
    | Except.error msg => mkErrorResponse 500 msg

/-- A sequence of independent invocations of the handler; the hosting
process runs each request in isolation. -/
def serveAll (jsonParse : String → Option Json)
    (fetchUpstream : ChatRequest → UpstreamResp)
    (apiKey : Option String) (reqs : List Request) : List Response :=
  reqs.map (serve jsonParse fetchUpstream apiKey)

/-- Boolean prefix test on character lists. -/
def charsPrefix : List Char → List Char → Bool
  | [], _ => true
  | _ :: _, [] => false
  | a :: as, b :: bs => a == b && charsPrefix as bs

/-- Boolean substring test on character lists: the pattern is a prefix
of some suffix of the haystack. -/
def charsContain (pat : List Char) : List Char → Bool
  | [] => charsPrefix pat []
  | c :: rest => charsPrefix pat (c :: rest) || charsContain pat rest

/-- Boolean substring test on strings. -/
def strContains (s pat : String) : Bool :=
  charsContain pat.data s.data

/-- Nutritional macros per serving, as in the Recipe interface of the
UI. -/
structure Macros where
  calories : Int
  protein : Int
  carbs : Int
  fats : Int
deriving Repr, DecidableEq

/-- A recipe value, as in the Recipe interface of the UI. -/
structure Recipe where
  name : String
  cookingTime : Int
  difficulty : String
  servings : Int
  macros : Macros
  ingredients : List String
  instructions : List String
deriving Repr, DecidableEq

/-- A row of the saved_recipes store, as fetched by the listing page. -/
structure SavedRecipeRow where
  id : Nat
  user_id : String
  recipe_name : String
  recipe_data : Recipe
  is_favorite : Bool
deriving Repr, DecidableEq

/-- An insert into the saved_recipes store: the store grows by one row,
the id being generated by the store. -/
def insertRow (store : List SavedRecipeRow) (row : SavedRecipeRow) :
    List SavedRecipeRow :=
  store ++ [row]

/-- The Save action of the recipe page: inserts a fresh row with
is_favorite false. -/
def handleSaveRecipe (store : List SavedRecipeRow) (newId : Nat)
    (uid : String) (recipe : Recipe) : List SavedRecipeRow :=
  insertRow store
    { id := newId, user_id := uid, recipe_name := recipe.name,
      recipe_data := recipe, is_favorite := false }

/-- The Favorite action of the recipe page: inserts a fresh row with
is_favorite true. -/
def handleFavoriteRecipe (store : List SavedRecipeRow) (newId : Nat)
    (uid : String) (recipe : Recipe) : List SavedRecipeRow :=
  insertRow store
    { id := newId, user_id := uid, recipe_name := recipe.name,
      recipe_data := recipe, is_favorite := true }

/-- The Saved Recipes tab of the listing page: the fetched rows whose
is_favorite flag is false. -/
def savedRecipes (rows : List SavedRecipeRow) : List SavedRecipeRow :=
  rows.filter (fun r => !r.is_favorite)

/-- The Favorites tab of the listing page: the fetched rows whose
is_favorite flag is true. -/
def favoriteRecipes (rows : List SavedRecipeRow) : List SavedRecipeRow :=
  rows.filter (fun r => r.is_favorite)

lemma getIngredients_not_null {body : Json} {l : List String}
    (h : getIngredients body = some l) : isNullJson body = false := by
  cases body <;> simp_all [getIngredients, isNullJson]

lemma handleUpstream_headers (jp : String → Option Json)
    (resp : UpstreamResp) (r : Response)
    (h : handleUpstream jp resp = Except.ok r) : r.headers = jsonHeaders := by
  unfold handleUpstream at h
  repeat' split at h
  all_goals first
    | exact Except.noConfusion h
    | (injection h with h2; subst h2; simp [mkErrorResponse])

lemma handleUpstream_status (jp : String → Option Json)
    (resp : UpstreamResp) (r : Response)
    (h : handleUpstream jp resp = Except.ok r) :
    r.status = 200 ∨ r.status = 429 ∨ r.status = 402 := by
  unfold handleUpstream at h
  repeat' split at h
  all_goals first
    | exact Except.noConfusion h
    | (injection h with h2; subst h2; simp [mkErrorResponse])

lemma handlerBody_headers (jp : String → Option Json)
    (f : ChatRequest → UpstreamResp) (k : Option String) (req : Request)
    (r : Response) (h : handlerBody jp f k req = Except.ok r) :
    r.headers = jsonHeaders := by
  unfold handlerBody at h
  repeat' split at h
  all_goals first
    | exact handleUpstream_headers _ _ _ h
    | exact Except.noConfusion h

lemma handlerBody_status (jp : String → Option Json)
    (f : ChatRequest → UpstreamResp) (k : Option String) (req : Request)
    (r : Response) (h : handlerBody jp f k req = Except.ok r) :
    r.status = 200 ∨ r.status = 429 ∨ r.status = 402 := by
  unfold handlerBody at h
  repeat' split at h
  all_goals first
    | exact handleUpstream_status _ _ _ h
    | exact Except.noConfusion h

lemma handlerBody_reaches (jp : String → Option Json)
    (f : ChatRequest → UpstreamResp) (key : String) (req : Request)
    (body : Json) (l : List String)
    (hb : req.body = Except.ok body) (hi : getIngredients body = some l) :
    handlerBody jp f (some key) req = handleUpstream jp (f (mkChatRequest l)) := by
  have hn := getIngredients_not_null hi
  simp only [handlerBody, hb, hn, Bool.false_eq_true, if_false, hi]

lemma serve_eq_of_handlerBody (jp : String → Option Json)
    (f : ChatRequest → UpstreamResp) (k : Option String) (req : Request)
    (hm : req.method ≠ "OPTIONS") :
    serve jp f k req
      = match handlerBody jp f k req with
        | Except.ok r => r
        | Except.error msg => mkErrorResponse 500 msg := by
  simp only [serve, if_neg hm]

/-- C4: whenever the upstream call returns status 429, the proxy
responds with status exactly 429 and the normalized rate limit error
body. -/
theorem serve_rate_limit_429 (jp : String → Option Json)
    (f : ChatRequest → UpstreamResp) (key : String) (req : Request)
    (body : Json) (l : List String)
    (hm : req.method ≠ "OPTIONS") (hb : req.body = Except.ok body)
    (hi : getIngredients body = some l)
    (hs : (f (mkChatRequest l)).status = 429) :
    serve jp f (some key) req
      = { status := 429, headers := jsonHeaders,
          body := some (Json.obj
            [("error", Json.str "Rate limit exceeded. Please try again later.")]) } := by
  rw [serve_eq_of_handlerBody _ _ _ _ hm, handlerBody_reaches _ _ _ _ _ _ hb hi]
  have h : handleUpstream jp (f (mkChatRequest l))
      = Except.ok (mkErrorResponse 429 "Rate limit exceeded. Please try again later.") := by
    unfold handleUpstream
    rw [hs]
    simp [show statusOk 429 = false from rfl]
  rw [h]
  rfl

/-- C4 witness: a concrete 429 upstream response mapped to the 429
proxy response. -/
theorem serve_rate_limit_429_witness :
    serve (fun _ => none) (fun _ => ⟨429, "rate", Except.error "e"⟩) (some "key")
        ⟨"POST", Except.ok (Json.obj [("ingredients", Json.arr [Json.str "egg"])])⟩
      = { status := 429, headers := jsonHeaders,
          body := some (Json.obj
            [("error", Json.str "Rate limit exceeded. Please try again later.")]) } :=
  serve_rate_limit_429 (fun _ => none) (fun _ => ⟨429, "rate", Except.error "e"⟩)
    "key" ⟨"POST", Except.ok (Json.obj [("ingredients", Json.arr [Json.str "egg"])])⟩
    (Json.obj [("ingredients", Json.arr [Json.str "egg"])]) ["egg"]
    (by decide) rfl rfl rfl

/-- C5: whenever the upstream call returns status 402, the proxy
responds with status exactly 402 and the normalized payment required
error body. -/
theorem serve_payment_required_402 (jp : String → Option Json)
    (f : ChatRequest → UpstreamResp) (key : String) (req : Request)
    (body : Json) (l : List String)
    (hm : req.method ≠ "OPTIONS") (hb : req.body = Except.ok body)
    (hi : getIngredients body = some l)
    (hs : (f (mkChatRequest l)).status = 402) :
    serve jp f (some key) req
      = { status := 402, headers := jsonHeaders,
          body := some (Json.obj
            [("error", Json.str "Payment required. Please add credits to your workspace.")]) } := by
  rw [serve_eq_of_handlerBody _ _ _ _ hm, handlerBody_reaches _ _ _ _ _ _ hb hi]
  have h : handleUpstream jp (f (mkChatRequest l))
      = Except.ok (mkErrorResponse 402 "Payment required. Please add credits to your workspace.") := by
    unfold handleUpstream
    rw [hs]
    simp [show statusOk 402 = false from rfl]
  rw [h]
  rfl

/-- C5 witness: a concrete 402 upstream response mapped to the 402
proxy response. -/
theorem serve_payment_required_402_witness :
    serve (fun _ => none) (fun _ => ⟨402, "pay", Except.error "e"⟩) (some "key")
        ⟨"POST", Except.ok (Json.obj [("ingredients", Json.arr [Json.str "egg"])])⟩
      = { status := 402, headers := jsonHeaders,
          body := some (Json.obj
            [("error", Json.str "Payment required. Please add credits to your workspace.")]) } :=
  serve_payment_required_402 (fun _ => none) (fun _ => ⟨402, "pay", Except.error "e"⟩)
    "key" ⟨"POST", Except.ok (Json.obj [("ingredients", Json.arr [Json.str "egg"])])⟩
    (Json.obj [("ingredients", Json.arr [Json.str "egg"])]) ["egg"]
    (by decide) rfl rfl rfl

/-- C1 counterexample: at a concrete upstream failure with status 503,
the error body returned to the caller is the gateway error message,
which contains the upstream status digits 503; the upstream status is
therefore returned to the caller, not only logged. -/
theorem serve_generic_failure_reveals_status :
    (serve (fun _ => none)
        (fun _ => ⟨503, "upstream error body", Except.error "network"⟩)
        (some "key")
        ⟨"POST", Except.ok (Json.obj [("ingredients", Json.arr [Json.str "egg"])])⟩).body
      = some (Json.obj [("error", Json.str "AI gateway error: 503")])
    ∧ strContains "AI gateway error: 503" "503" = true :=
  ⟨rfl, by decide⟩

/-- C1 (amended): for every upstream response whose status is
non-success and neither 429 nor 402, the proxy responds with HTTP 500
and the body is the gateway error envelope, which embeds the upstream
status; the upstream response body is only logged and never influences
the response. -/
theorem serve_generic_failure_500 (jp : String → Option Json)
    (f : ChatRequest → UpstreamResp) (key : String) (req : Request)
    (body : Json) (l : List String) (t : String)
    (hm : req.method ≠ "OPTIONS") (hb : req.body = Except.ok body)
    (hi : getIngredients body = some l)
    (hok : statusOk (f (mkChatRequest l)).status = false)
    (h429 : (f (mkChatRequest l)).status ≠ 429)
    (h402 : (f (mkChatRequest l)).status ≠ 402) :
    serve jp f (some key) req
      = mkErrorResponse 500 (gatewayErrorMsg (f (mkChatRequest l)).status)
    ∧ serve jp (fun q => { f q with errorText := t }) (some key) req
      = serve jp f (some key) req := by
  have main : ∀ g : ChatRequest → UpstreamResp,
      (g (mkChatRequest l)).status = (f (mkChatRequest l)).status →
      serve jp g (some key) req
        = mkErrorResponse 500 (gatewayErrorMsg (f (mkChatRequest l)).status) := by
    intro g hg
    rw [serve_eq_of_handlerBody _ _ _ _ hm, handlerBody_reaches _ _ _ _ _ _ hb hi]
    have h : handleUpstream jp (g (mkChatRequest l))
        = Except.error (gatewayErrorMsg (f (mkChatRequest l)).status) := by
      unfold handleUpstream
      rw [hg]
      simp [hok, h429, h402]
    rw [h]
  exact ⟨main f rfl, (main _ rfl).trans (main f rfl).symm⟩

/-- C1 witness: a concrete generic upstream failure mapped to the 500
gateway error envelope. -/
theorem serve_generic_failure_500_witness :
    serve (fun _ => none) (fun _ => ⟨503, "logged", Except.error "net"⟩) (some "key")
        ⟨"POST", Except.ok (Json.obj [("ingredients", Json.arr [Json.str "egg"])])⟩
      = mkErrorResponse 500 "AI gateway error: 503" :=
  (serve_generic_failure_500 (fun _ => none)
    (fun _ => ⟨503, "logged", Except.error "net"⟩) "key"
    ⟨"POST", Except.ok (Json.obj [("ingredients", Json.arr [Json.str "egg"])])⟩
    (Json.obj [("ingredients", Json.arr [Json.str "egg"])]) ["egg"] "other"
    (by decide) rfl rfl rfl (by decide) (by decide)).1

/-- C2: when the upstream call succeeds but the message content is not
parseable JSON, the proxy responds 500 through the exception path and
never responds 200. -/
theorem serve_unparseable_content_500 (jp : String → Option Json)
    (f : ChatRequest → UpstreamResp) (key : String) (req : Request)
    (body : Json) (l : List String) (data : Json) (content : String)
    (hm : req.method ≠ "OPTIONS") (hb : req.body = Except.ok body)
    (hi : getIngredients body = some l)
    (hok : statusOk (f (mkChatRequest l)).status = true)
    (hdata : (f (mkChatRequest l)).body = Except.ok data)
    (hc : getContent data = some content)
    (hp : jp content = none) :
    serve jp f (some key) req = mkErrorResponse 500 parseErrorMsg
    ∧ (serve jp f (some key) req).status ≠ 200 := by
  have h : handleUpstream jp (f (mkChatRequest l)) = Except.error parseErrorMsg := by
    unfold handleUpstream
    simp [hok, hdata, hc, hp]
  have hres : serve jp f (some key) req = mkErrorResponse 500 parseErrorMsg := by
    rw [serve_eq_of_handlerBody _ _ _ _ hm, handlerBody_reaches _ _ _ _ _ _ hb hi, h]
  exact ⟨hres, by rw [hres]; decide⟩

/-- C2 witness: a concrete upstream success whose content field is not
JSON, mapped to the 500 exception response. -/
theorem serve_unparseable_content_500_witness :
    serve (fun _ => none)
        (fun _ => ⟨200, "", Except.ok (Json.obj [("choices", Json.arr
          [Json.obj [("message", Json.obj [("content", Json.str "not json")])]])])⟩)
        (some "key")
        ⟨"POST", Except.ok (Json.obj [("ingredients", Json.arr [Json.str "egg"])])⟩
      = mkErrorResponse 500 parseErrorMsg
    ∧ (serve (fun _ => none)
        (fun _ => ⟨200, "", Except.ok (Json.obj [("choices", Json.arr
          [Json.obj [("message", Json.obj [("content", Json.str "not json")])]])])⟩)
        (some "key")
        ⟨"POST", Except.ok (Json.obj [("ingredients", Json.arr [Json.str "egg"])])⟩).status
      ≠ 200 :=
  serve_unparseable_content_500 (fun _ => none)
    (fun _ => ⟨200, "", Except.ok (Json.obj [("choices", Json.arr
      [Json.obj [("message", Json.obj [("content", Json.str "not json")])]])])⟩)
    "key" ⟨"POST", Except.ok (Json.obj [("ingredients", Json.arr [Json.str "egg"])])⟩
    (Json.obj [("ingredients", Json.arr [Json.str "egg"])]) ["egg"]
    (Json.obj [("choices", Json.arr
      [Json.obj [("message", Json.obj [("content", Json.str "not json")])]])])
    "not json" (by decide) rfl rfl rfl rfl rfl rfl

/-- C3: when the upstream call succeeds and the message content parses
as JSON, the proxy responds 200 with the recipe envelope, for any
parsed value whatsoever (no structural validation). -/
theorem serve_success_envelope (jp : String → Option Json)
    (f : ChatRequest → UpstreamResp) (key : String) (req : Request)
    (body : Json) (l : List String) (data : Json) (content : String)
    (recipeData : Json)
    (hm : req.method ≠ "OPTIONS") (hb : req.body = Except.ok body)
    (hi : getIngredients body = some l)
    (hok : statusOk (f (mkChatRequest l)).status = true)
    (hdata : (f (mkChatRequest l)).body = Except.ok data)
    (hc : getContent data = some content)
    (hp : jp content = some recipeData) :
    serve jp f (some key) req
      = { status := 200, headers := jsonHeaders,
          body := some (Json.obj [("recipe", recipeData)]) } := by
  have h : handleUpstream jp (f (mkChatRequest l))
      = Except.ok { status := 200, headers := jsonHeaders,
                    body := some (Json.obj [("recipe", recipeData)]) } := by
    unfold handleUpstream
    simp [hok, hdata, hc, hp]
  rw [serve_eq_of_handlerBody _ _ _ _ hm, handlerBody_reaches _ _ _ _ _ _ hb hi, h]

/-- C3 witness: a concrete upstream success whose content parses to a
JSON number, forwarded untouched in the recipe envelope. -/
theorem serve_success_envelope_witness :
    serve (fun _ => some (Json.num 7))
        (fun _ => ⟨200, "", Except.ok (Json.obj [("choices", Json.arr
          [Json.obj [("message", Json.obj [("content", Json.str "7")])]])])⟩)
        (some "key")
        ⟨"POST", Except.ok (Json.obj [("ingredients", Json.arr [Json.str "egg"])])⟩
      = { status := 200, headers := jsonHeaders,
          body := some (Json.obj [("recipe", Json.num 7)]) } :=
  serve_success_envelope (fun _ => some (Json.num 7))
    (fun _ => ⟨200, "", Except.ok (Json.obj [("choices", Json.arr
      [Json.obj [("message", Json.obj [("content", Json.str "7")])]])])⟩)
    "key" ⟨"POST", Except.ok (Json.obj [("ingredients", Json.arr [Json.str "egg"])])⟩
    (Json.obj [("ingredients", Json.arr [Json.str "egg"])]) ["egg"]
    (Json.obj [("choices", Json.arr
      [Json.obj [("message", Json.obj [("content", Json.str "7")])]])])
    "7" (Json.num 7) (by decide) rfl rfl rfl rfl rfl rfl

/-- C6: when the API key is absent, the request fails with a generic
500 carrying the configuration error message, and subsequent
invocations of the process are processed exactly as they would be on
their own. -/
theorem serve_missing_key_500 (jp : String → Option Json)
    (f : ChatRequest → UpstreamResp) (req : Request) (body : Json)
    (rest : List Request)
    (hm : req.method ≠ "OPTIONS") (hb : req.body = Except.ok body)
    (hn : isNullJson body = false) :
    serve jp f none req = mkErrorResponse 500 keyMissingMsg
    ∧ serveAll jp f none (req :: rest)
        = mkErrorResponse 500 keyMissingMsg :: serveAll jp f none rest := by
  have h : handlerBody jp f none req = Except.error keyMissingMsg := by
    simp only [handlerBody, hb, hn, Bool.false_eq_true, if_false]
  have h1 : serve jp f none req = mkErrorResponse 500 keyMissingMsg := by
    rw [serve_eq_of_handlerBody _ _ _ _ hm, h]
  exact ⟨h1, by simp [serveAll, h1]⟩

/-- C6 witness: a concrete request processed without a configured key,
followed by a second invocation that is unaffected. -/
theorem serve_missing_key_500_witness :
    serve (fun _ => none) (fun _ => ⟨200, "", Except.error "e"⟩) none
        ⟨"POST", Except.ok (Json.obj [("ingredients", Json.arr [Json.str "egg"])])⟩
      = mkErrorResponse 500 keyMissingMsg
    ∧ serveAll (fun _ => none) (fun _ => ⟨200, "", Except.error "e"⟩) none
        [⟨"POST", Except.ok (Json.obj [("ingredients", Json.arr [Json.str "egg"])])⟩,
         ⟨"OPTIONS", Except.error "x"⟩]
      = mkErrorResponse 500 keyMissingMsg
        :: serveAll (fun _ => none) (fun _ => ⟨200, "", Except.error "e"⟩) none
             [⟨"OPTIONS", Except.error "x"⟩] :=
  serve_missing_key_500 (fun _ => none) (fun _ => ⟨200, "", Except.error "e"⟩)
    ⟨"POST", Except.ok (Json.obj [("ingredients", Json.arr [Json.str "egg"])])⟩
    (Json.obj [("ingredients", Json.arr [Json.str "egg"])])
    [⟨"OPTIONS", Except.error "x"⟩]
    (by decide) rfl rfl

/-- C7: every response carries the permissive CORS headers, and an
OPTIONS request short-circuits with status 200, empty body and exactly
the CORS headers. -/
theorem serve_cors_all_branches (jp : String → Option Json)
    (f : ChatRequest → UpstreamResp) (key : Option String) (req : Request) :
    (∀ hdr, hdr ∈ corsHeaders → hdr ∈ (serve jp f key req).headers)
    ∧ (req.method = "OPTIONS" →
        serve jp f key req = { status := 200, headers := corsHeaders, body := none }) := by
  constructor
  · intro hdr hmem
    by_cases hm : req.method = "OPTIONS"
    · simp [serve, hm, hmem]
    · rw [serve_eq_of_handlerBody _ _ _ _ hm]
      cases heq : handlerBody jp f key req with
      | ok r =>
          show hdr ∈ r.headers
          rw [handlerBody_headers jp f key req r heq]
          exact List.mem_append_left _ hmem
      | error e =>
          show hdr ∈ (mkErrorResponse 500 e).headers
          exact List.mem_append_left _ hmem
  · intro hm
    simp [serve, hm]

/-- C7 witness: the CORS origin header is on a concrete non-OPTIONS
response, and a concrete OPTIONS request yields the empty 200 CORS
response. -/
theorem serve_cors_all_branches_witness :
    ("Access-Control-Allow-Origin", "*")
      ∈ (serve (fun _ => none) (fun _ => ⟨503, "", Except.error "e"⟩) none
          ⟨"POST", Except.error "bad body"⟩).headers
    ∧ serve (fun _ => none) (fun _ => ⟨503, "", Except.error "e"⟩) none
        ⟨"OPTIONS", Except.error "bad body"⟩
      = { status := 200, headers := corsHeaders, body := none } :=
  ⟨(serve_cors_all_branches (fun _ => none) (fun _ => ⟨503, "", Except.error "e"⟩)
      none ⟨"POST", Except.error "bad body"⟩).1 _ (by decide),
   (serve_cors_all_branches (fun _ => none) (fun _ => ⟨503, "", Except.error "e"⟩)
      none ⟨"OPTIONS", Except.error "bad body"⟩).2 rfl⟩

/-- C8: the user prompt is the fixed lead-in followed by the
ingredients joined with a comma delimiter, and for the ingredient list
chicken, rice it literally contains the substring chicken, rice. -/
theorem user_prompt_contains_joined_ingredients :
    (∀ ings : List String, (mkChatRequest ings).userContent
        = "Create a recipe using these ingredients: " ++ String.intercalate ", " ings)
    ∧ (mkChatRequest ["chicken", "rice"]).userContent
        = "Create a recipe using these ingredients: chicken, rice"
    ∧ strContains (mkChatRequest ["chicken", "rice"]).userContent "chicken, rice" = true :=
  ⟨fun _ => rfl, rfl, by decide⟩

/-- C9: an empty ingredients array is not rejected: for every upstream
fetch function, the response is exactly the result of calling the
upstream with the request built from the empty list and processing its
answer through the ordinary response pipeline, so no validation
short-circuit exists and no status outside the upstream-derived set is
produced. -/
theorem serve_no_ingredient_validation (jp : String → Option Json)
    (f : ChatRequest → UpstreamResp) (key : String) (req : Request)
    (body : Json)
    (hm : req.method ≠ "OPTIONS") (hb : req.body = Except.ok body)
    (hi : getIngredients body = some []) :
    serve jp f (some key) req
      = (match handleUpstream jp (f (mkChatRequest [])) with
         | Except.ok r => r
         | Except.error msg => mkErrorResponse 500 msg)
    ∧ (serve jp f (some key) req).status ∈ ([200, 402, 429, 500] : List Nat) := by
  constructor
  · rw [serve_eq_of_handlerBody _ _ _ _ hm, handlerBody_reaches _ _ _ _ _ _ hb hi]
  · rw [serve_eq_of_handlerBody _ _ _ _ hm]
    cases heq : handlerBody jp f (some key) req with
    | ok r =>
        show r.status ∈ _
        rcases handlerBody_status _ _ _ _ _ heq with h | h | h <;> simp [h]
    | error e =>
        show (mkErrorResponse 500 e).status ∈ _
        simp [mkErrorResponse]

/-- C9 witness: a concrete request with an empty ingredients array
reaches the upstream call, whose 429 answer shows through in the
response instead of any input-validation error. -/
theorem serve_no_ingredient_validation_witness :
    serve (fun _ => none) (fun _ => ⟨429, "", Except.error "x"⟩) (some "key")
        ⟨"POST", Except.ok (Json.obj [("ingredients", Json.arr [])])⟩
      = mkErrorResponse 429 "Rate limit exceeded. Please try again later."
    ∧ (serve (fun _ => none) (fun _ => ⟨429, "", Except.error "x"⟩) (some "key")
        ⟨"POST", Except.ok (Json.obj [("ingredients", Json.arr [])])⟩).status
      ∈ ([200, 402, 429, 500] : List Nat) :=
  serve_no_ingredient_validation (fun _ => none)
    (fun _ => ⟨429, "", Except.error "x"⟩)
    "key" ⟨"POST", Except.ok (Json.obj [("ingredients", Json.arr [])])⟩
    (Json.obj [("ingredients", Json.arr [])])
    (by decide) rfl rfl

/-- C10: Save inserts a new row with is_favorite false and Favorite
inserts a separate new row with is_favorite true, leaving existing rows
untouched; the two rows are distinct, the listing filters place the
saved row only in the Saved Recipes tab and the favorited row only in
the Favorites tab, and every fetched row lands in exactly one of the
two tabs. -/
theorem save_favorite_rows_partition
    (store : List SavedRecipeRow) (id1 id2 : Nat) (uid : String) (recipe : Recipe)
    (rows : List SavedRecipeRow) (r : SavedRecipeRow) (hr : r ∈ rows) :
    handleSaveRecipe store id1 uid recipe
      = store ++ [{ id := id1, user_id := uid, recipe_name := recipe.name,
                    recipe_data := recipe, is_favorite := false }]
    ∧ handleFavoriteRecipe (handleSaveRecipe store id1 uid recipe) id2 uid recipe
      = store ++ [{ id := id1, user_id := uid, recipe_name := recipe.name,
                    recipe_data := recipe, is_favorite := false },
                  { id := id2, user_id := uid, recipe_name := recipe.name,
                    recipe_data := recipe, is_favorite := true }]
    ∧ ({ id := id1, user_id := uid, recipe_name := recipe.name,
         recipe_data := recipe, is_favorite := false } : SavedRecipeRow)
        ≠ { id := id2, user_id := uid, recipe_name := recipe.name,
            recipe_data := recipe, is_favorite := true }
    ∧ ({ id := id1, user_id := uid, recipe_name := recipe.name,
         recipe_data := recipe, is_favorite := false } : SavedRecipeRow)
        ∈ savedRecipes
            (handleFavoriteRecipe (handleSaveRecipe store id1 uid recipe) id2 uid recipe)
    ∧ ({ id := id1, user_id := uid, recipe_name := recipe.name,
         recipe_data := recipe, is_favorite := false } : SavedRecipeRow)
        ∉ favoriteRecipes
            (handleFavoriteRecipe (handleSaveRecipe store id1 uid recipe) id2 uid recipe)
    ∧ ({ id := id2, user_id := uid, recipe_name := recipe.name,
         recipe_data := recipe, is_favorite := true } : SavedRecipeRow)
        ∈ favoriteRecipes
            (handleFavoriteRecipe (handleSaveRecipe store id1 uid recipe) id2 uid recipe)
    ∧ ({ id := id2, user_id := uid, recipe_name := recipe.name,
         recipe_data := recipe, is_favorite := true } : SavedRecipeRow)
        ∉ savedRecipes
            (handleFavoriteRecipe (handleSaveRecipe store id1 uid recipe) id2 uid recipe)
    ∧ ((r ∈ savedRecipes rows ∧ r ∉ favoriteRecipes rows)
        ∨ (r ∈ favoriteRecipes rows ∧ r ∉ savedRecipes rows)) := by
  refine ⟨rfl, ?_, ?_, ?_, ?_, ?_, ?_, ?_⟩
  · simp [handleSaveRecipe, handleFavoriteRecipe, insertRow]
  · simp
  · simp [savedRecipes, handleSaveRecipe, handleFavoriteRecipe, insertRow,
          List.mem_filter]
  · simp [favoriteRecipes, handleSaveRecipe, handleFavoriteRecipe, insertRow,
          List.mem_filter]
  · simp [favoriteRecipes, handleSaveRecipe, handleFavoriteRecipe, insertRow,
          List.mem_filter]
  · simp [savedRecipes, handleSaveRecipe, handleFavoriteRecipe, insertRow,
          List.mem_filter]
  · cases hf : r.is_favorite <;>
      simp [savedRecipes, favoriteRecipes, List.mem_filter, hf, hr]

/-- C10 witness: a concrete recipe saved and favorited from an empty
store, with the two rows landing in the two different tabs. -/
theorem save_favorite_rows_partition_witness :
    handleSaveRecipe [] 0 "u" ⟨"Dish", 30, "Easy", 4, ⟨450, 35, 40, 15⟩, ["egg"], ["cook"]⟩
      = [⟨0, "u", "Dish", ⟨"Dish", 30, "Easy", 4, ⟨450, 35, 40, 15⟩, ["egg"], ["cook"]⟩, false⟩]
    ∧ handleFavoriteRecipe
        (handleSaveRecipe [] 0 "u" ⟨"Dish", 30, "Easy", 4, ⟨450, 35, 40, 15⟩, ["egg"], ["cook"]⟩)
        1 "u" ⟨"Dish", 30, "Easy", 4, ⟨450, 35, 40, 15⟩, ["egg"], ["cook"]⟩
      = [⟨0, "u", "Dish", ⟨"Dish", 30, "Easy", 4, ⟨450, 35, 40, 15⟩, ["egg"], ["cook"]⟩, false⟩,
         ⟨1, "u", "Dish", ⟨"Dish", 30, "Easy", 4, ⟨450, 35, 40, 15⟩, ["egg"], ["cook"]⟩, true⟩]
    ∧ (⟨0, "u", "Dish", ⟨"Dish", 30, "Easy", 4, ⟨450, 35, 40, 15⟩, ["egg"], ["cook"]⟩, false⟩
        : SavedRecipeRow)
      ≠ ⟨1, "u", "Dish", ⟨"Dish", 30, "Easy", 4, ⟨450, 35, 40, 15⟩, ["egg"], ["cook"]⟩, true⟩
    ∧ (⟨0, "u", "Dish", ⟨"Dish", 30, "Easy", 4, ⟨450, 35, 40, 15⟩, ["egg"], ["cook"]⟩, false⟩
        : SavedRecipeRow)
      ∈ savedRecipes (handleFavoriteRecipe
          (handleSaveRecipe [] 0 "u" ⟨"Dish", 30, "Easy", 4, ⟨450, 35, 40, 15⟩, ["egg"], ["cook"]⟩)
          1 "u" ⟨"Dish", 30, "Easy", 4, ⟨450, 35, 40, 15⟩, ["egg"], ["cook"]⟩)
    ∧ (⟨0, "u", "Dish", ⟨"Dish", 30, "Easy", 4, ⟨450, 35, 40, 15⟩, ["egg"], ["cook"]⟩, false⟩
        : SavedRecipeRow)
      ∉ favoriteRecipes (handleFavoriteRecipe
          (handleSaveRecipe [] 0 "u" ⟨"Dish", 30, "Easy", 4, ⟨450, 35, 40, 15⟩, ["egg"], ["cook"]⟩)
          1 "u" ⟨"Dish", 30, "Easy", 4, ⟨450, 35, 40, 15⟩, ["egg"], ["cook"]⟩)
    ∧ (⟨1, "u", "Dish", ⟨"Dish", 30, "Easy", 4, ⟨450, 35, 40, 15⟩, ["egg"], ["cook"]⟩, true⟩
        : SavedRecipeRow)
      ∈ favoriteRecipes (handleFavoriteRecipe
          (handleSaveRecipe [] 0 "u" ⟨"Dish", 30, "Easy", 4, ⟨450, 35, 40, 15⟩, ["egg"], ["cook"]⟩)
          1 "u" ⟨"Dish", 30, "Easy", 4, ⟨450, 35, 40, 15⟩, ["egg"], ["cook"]⟩)
    ∧ (⟨1, "u", "Dish", ⟨"Dish", 30, "Easy", 4, ⟨450, 35, 40, 15⟩, ["egg"], ["cook"]⟩, true⟩
        : SavedRecipeRow)
      ∉ savedRecipes (handleFavoriteRecipe
          (handleSaveRecipe [] 0 "u" ⟨"Dish", 30, "Easy", 4, ⟨450, 35, 40, 15⟩, ["egg"], ["cook"]⟩)
          1 "u" ⟨"Dish", 30, "Easy", 4, ⟨450, 35, 40, 15⟩, ["egg"], ["cook"]⟩)
    ∧ (((⟨0, "u", "Dish", ⟨"Dish", 30, "Easy", 4, ⟨450, 35, 40, 15⟩, ["egg"], ["cook"]⟩, false⟩
          : SavedRecipeRow)
         ∈ savedRecipes
             [⟨0, "u", "Dish", ⟨"Dish", 30, "Easy", 4, ⟨450, 35, 40, 15⟩, ["egg"], ["cook"]⟩, false⟩]
        ∧ (⟨0, "u", "Dish", ⟨"Dish", 30, "Easy", 4, ⟨450, 35, 40, 15⟩, ["egg"], ["cook"]⟩, false⟩
            : SavedRecipeRow)
          ∉ favoriteRecipes
              [⟨0, "u", "Dish", ⟨"Dish", 30, "Easy", 4, ⟨450, 35, 40, 15⟩, ["egg"], ["cook"]⟩, false⟩])
       ∨ ((⟨0, "u", "Dish", ⟨"Dish", 30, "Easy", 4, ⟨450, 35, 40, 15⟩, ["egg"], ["cook"]⟩, false⟩
            : SavedRecipeRow)
           ∈ favoriteRecipes
               [⟨0, "u", "Dish", ⟨"Dish", 30, "Easy", 4, ⟨450, 35, 40, 15⟩, ["egg"], ["cook"]⟩, false⟩]
          ∧ (⟨0, "u", "Dish", ⟨"Dish", 30, "Easy", 4, ⟨450, 35, 40, 15⟩, ["egg"], ["cook"]⟩, false⟩
              : SavedRecipeRow)
            ∉ savedRecipes
                [⟨0, "u", "Dish", ⟨"Dish", 30, "Easy", 4, ⟨450, 35, 40, 15⟩, ["egg"], ["cook"]⟩, false⟩])) :=
  save_favorite_rows_partition [] 0 1 "u"
    ⟨"Dish", 30, "Easy", 4, ⟨450, 35, 40, 15⟩, ["egg"], ["cook"]⟩
    [⟨0, "u", "Dish", ⟨"Dish", 30, "Easy", 4, ⟨450, 35, 40, 15⟩, ["egg"], ["cook"]⟩, false⟩]
    ⟨0, "u", "Dish", ⟨"Dish", 30, "Easy", 4, ⟨450, 35, 40, 15⟩, ["egg"], ["cook"]⟩, false⟩
    (by decide)
